import Mathlib

/-!
Shallow embedding of the auraxis-api feature-flag runtime
(`src/app/utils/feature_flags.py`) and the catalog hygiene script
(`src/scripts/check_feature_flags.py`), with theorems settling the
frozen claims about them.

Modelling conventions:
* Parsed JSON values are an inductive `Json`; the Python `json.loads`
  function (library code, not repository code) is treated as an oracle:
  file and environment-variable contents enter the model either as a
  parsed `Json` value or as a `malformed` marker meaning `json.loads`
  raises.
* Python `dict[str, X]` values built by the loops in the module are
  association lists with unique keys; `dictSet` models `d[k] = v` on
  such a dict (replace in place, else append — Python 3.7+ insertion
  order) and `dictGet?` models `d.get(k)`.
* Python exceptions are the `PyExn` inductive; a function that can
  raise returns `Except PyExn _`.
* `str.strip()` / `str.lower()` are modelled by `String.trim` /
  `String.toLower` (faithful on the ASCII data these flags use).
* Monotonic clock readings and TTL values are rationals.
-/

/-- ASCII lower-casing of one character (`str.lower()` restricted to
the ASCII data these flags use). Implemented over `Char` codes so
that it reduces inside the kernel. -/
def pyLowerChar (c : Char) : Char :=
  if 65 ≤ c.toNat ∧ c.toNat ≤ 90 then Char.ofNat (c.toNat + 32) else c

/-- `str.lower()` (ASCII). -/
def pyLower (s : String) : String := ⟨s.data.map pyLowerChar⟩

/-- `str.strip()` with the standard whitespace characters. -/
def pyStrip (s : String) : String :=
  ⟨((s.data.dropWhile Char.isWhitespace).reverse.dropWhile Char.isWhitespace).reverse⟩

/-- `str.startswith(px)`. -/
def pyStartsWith (s px : String) : Bool := px.data.isPrefixOf s.data

/-- `str.rstrip("/")`. -/
def pyRstripSlash (s : String) : String :=
  ⟨(s.data.reverse.dropWhile (· == '/')).reverse⟩

/-- Parsed JSON value (the result of a successful `json.loads`).
Numbers are modelled as integers — every number in the feature-flag
data paths is integral. Object field lists have pairwise-distinct keys
when they come from `json.loads`. -/
inductive Json where
  | null
  | bool (b : Bool)
  | num (n : Int)
  | str (s : String)
  | arr (items : List Json)
  | obj (fields : List (String × Json))
deriving Repr

/-- Python exceptions that the modelled code can raise. -/
inductive PyExn where
  | jsonDecodeError
  | attributeError
  | fileNotFoundError
  | valueError (msg : String)
deriving Repr, DecidableEq

mutual

/-- Python `repr()` of a parsed JSON value (string escaping inside
nested `repr` is abbreviated to plain quoting, which is exact for the
quote-free ASCII strings appearing in the repository data). -/
def pyRepr : Json → String
  | .null => "None"
  | .bool true => "True"
  | .bool false => "False"
  | .num n => toString n
  | .str s => "\x27" ++ s ++ "\x27"
  | .arr items => "[" ++ pyReprItems items ++ "]"
  | .obj fields => "\x7b" ++ pyReprFields fields ++ "\x7d"

/-- `", "`-separated `repr`s of list items. -/
def pyReprItems : List Json → String
  | [] => ""
  | [x] => pyRepr x
  | x :: y :: rest => pyRepr x ++ ", " ++ pyReprItems (y :: rest)

/-- `", "`-separated `repr`s of dict entries. -/
def pyReprFields : List (String × Json) → String
  | [] => ""
  | [(k, v)] => "\x27" ++ k ++ "\x27: " ++ pyRepr v
  | (k, v) :: kv :: rest =>
      "\x27" ++ k ++ "\x27: " ++ pyRepr v ++ ", " ++ pyReprFields (kv :: rest)

end

/-- Python `str()` of a parsed JSON value. -/
def pyStr : Json → String
  | .str s => s
  | j => pyRepr j

/-- Python truthiness of a parsed JSON value (`bool(x)`). -/
def pyTruthy : Json → Bool
  | .null => false
  | .bool b => b
  | .num n => n != 0
  | .str s => s != ""
  | .arr items => !items.isEmpty
  | .obj fields => !fields.isEmpty

/-- `d.get(field)` on a parsed JSON value: a field lookup when the
value is an object, `None` otherwise (callers that reach the
`otherwise` case in Python would raise; the embedding only applies
`jsonGet` where the value is known to be an object). -/
def jsonGet : Json → String → Option Json
  | .obj fields, field => (fields.find? (fun kv => kv.1 == field)).map (·.2)
  | _, _ => none

/-- `d.get(k)` on a modelled Python dict. -/
def dictGet? {β : Type} (d : List (String × β)) (k : String) : Option β :=
  (d.find? (fun kv => kv.1 == k)).map (·.2)

/-- `d[k] = v` on a modelled Python dict with unique keys: replace the
entry in place if the key is present, append otherwise. -/
def dictSet {β : Type} : List (String × β) → String → β → List (String × β)
  | [], k, v => [(k, v)]
  | kv :: rest, k, v =>
      if kv.1 == k then (k, v) :: rest else kv :: dictSet rest k v

namespace FeatureFlags

/-- `_ENABLED_STATUSES` (feature_flags.py line 14). -/
def ENABLED_STATUSES : List String := ["active", "released", "enabled"]

/-- State of the catalog file as seen by `_load_catalog`:
missing, present but not valid JSON (`json.loads` raises), or present
with a parsed payload. -/
inductive FileState where
  | missing
  | malformed
  | content (payload : Json)
deriving Repr

/-- Outcome of the single HTTP GET issued by `_fetch_unleash_snapshot`
(feature_flags.py lines 165-180): one of the caught exception classes,
or a response with an HTTP status and a JSON-parsed body. -/
inductive FetchOutcome where
  | urlError
  | timeoutError
  | unicodeDecodeError
  | jsonDecodeError
  | ok (status : Nat) (payload : Json)
deriving Repr

/-- The ambient process state a single `is_feature_enabled` call sees:
the environment variables the resolution path reads, the catalog file,
the network answer to the one possible provider request, the
monotonic clock reading `time.monotonic()` at that request, and the
parsed cache TTL `_get_unleash_cache_ttl_seconds()` (its env-var float
parsing only shapes this rational and is otherwise outside the
claims). Header construction and the request timeout only shape `net`
and are abstracted into it. -/
structure World where
  flag_provider_env : Option String
  unleash_url_env : Option String
  unleash_proxy_url_env : Option String
  override_env : Option String
  override_json : Option Json
  catalog_file : FileState
  net : FetchOutcome
  now : Rat
  ttl : Rat
deriving Repr

/-- The mutable module state: the `lru_cache(maxsize=1)` memo slots
of `_load_catalog` and `_load_overrides`, and the two
`_unleash_cache_*` globals (feature_flags.py lines 28-29). -/
structure FlagState where
  catalog_cache : Option (List (String × Json))
  overrides_cache : Option (List (String × Bool))
  unleash_cache_snapshot : List (String × Bool)
  unleash_cache_expire_at : Rat
deriving Repr

/-- `_read_env_value` (lines 32-40), with the raw `os.getenv` results
for the queried keys passed positionally. -/
def read_env_value (values : List (Option String)) (default_value : String) : String :=
  match values with
  | [] => default_value
  | raw_value :: rest =>
      match raw_value with
      | some raw =>
          if pyStrip raw != "" then pyStrip raw else read_env_value rest default_value
      | none => read_env_value rest default_value

/-- `_normalize_status` (lines 43-44): `str(value or "").strip().lower()`. -/
def normalize_status (value : Json) : String :=
  pyLower (pyStrip (pyStr (if pyTruthy value then value else .str "")))

/-- `_as_bool_or_none` (lines 47-57). -/
def as_bool_or_none (value : Json) : Option Bool :=
  match value with
  | .bool b => some b
  | .null => none
  | v =>
      let normalized := pyLower (pyStrip (pyStr v))
      if normalized ∈ ["1", "true", "yes", "on"] then some true
      else if normalized ∈ ["0", "false", "no", "off"] then some false
      else none

/-- `_get_provider_mode` (lines 60-61). -/
def get_provider_mode (w : World) : String :=
  pyLower (read_env_value [w.flag_provider_env] "local")

/-- `_get_unleash_url` (lines 64-68): `.rstrip("/")` of the first
non-blank of the two URL variables. -/
def get_unleash_url (w : World) : String :=
  pyRstripSlash (read_env_value [w.unleash_url_env, w.unleash_proxy_url_env] "")

/-- `_parse_unleash_payload` (lines 122-140). -/
def parse_unleash_payload (payload : Json) : List (String × Bool) :=
  match payload with
  | .obj fields =>
      match (jsonGet (.obj fields) "features").getD (.arr []) with
      | .arr features =>
          features.foldl (fun parsed_flags feature =>
            match feature with
            | .obj _ =>
                let flag_name := pyStrip (pyStr ((jsonGet feature "name").getD (.str "")))
                match jsonGet feature "enabled" with
                | some (.bool flag_enabled) =>
                    if flag_name != "" then dictSet parsed_flags flag_name flag_enabled
                    else parsed_flags
                | _ => parsed_flags
            | _ => parsed_flags) []
      | _ => []
  | _ => []

/-- `_fetch_unleash_snapshot` (lines 143-185), returning the snapshot
together with the updated module state. Failure arms return `[]`
without touching the cache, exactly as each `return {}` does. -/
def fetch_unleash_snapshot (w : World) (st : FlagState) :
    List (String × Bool) × FlagState :=
  if get_provider_mode w != "unleash" then ([], st)
  else if get_unleash_url w == "" then ([], st)
  else if w.now < st.unleash_cache_expire_at then (st.unleash_cache_snapshot, st)
  else
    match w.net with
    | .urlError | .timeoutError | .unicodeDecodeError | .jsonDecodeError => ([], st)
    | .ok status payload =>
        if status != 200 then ([], st)
        else
          let parsed_flags := parse_unleash_payload payload
          (parsed_flags,
            { st with unleash_cache_snapshot := parsed_flags,
                      unleash_cache_expire_at := w.now + w.ttl })

/-- `resolve_provider_decision` (lines 188-194): snapshot values are
booleans by construction, so `snapshot.get` followed by the
`isinstance(..., bool)` guard is the plain lookup. -/
def resolve_provider_decision (w : World) (st : FlagState) (flag_key : String) :
    Option Bool × FlagState :=
  let fetched := fetch_unleash_snapshot w st
  (dictGet? fetched.1 flag_key, fetched.2)

/-- The key computed for one catalog entry at lines 208-213:
`none` when the entry is skipped (not a dict, or blank key). -/
def flag_key_of (flag : Json) : Option String :=
  match flag with
  | .obj _ =>
      let key := pyStrip (pyStr ((jsonGet flag "key").getD (.str "")))
      if key == "" then none else some key
  | _ => none

/-- The `by_key` loop of `_load_catalog` (lines 207-215). -/
def catalog_by_key (flags : List Json) : List (String × Json) :=
  flags.foldl (fun by_key flag =>
    match flag_key_of flag with
    | some key => dictSet by_key key flag
    | none => by_key) []

/-- `_load_catalog` (lines 197-215), uncached. `json.loads` failure
(line 202) and `payload.get` on a non-dict payload (line 203) raise —
there is no `try` around them. -/
def load_catalog (file : FileState) : Except PyExn (List (String × Json)) :=
  match file with
  | .missing => .ok []
  | .malformed => .error .jsonDecodeError
  | .content payload =>
      match payload with
      | .obj fields =>
          match (jsonGet (.obj fields) "flags").getD (.arr []) with
          | .arr flags => .ok (catalog_by_key flags)
          | _ => .ok []
      | _ => .error .attributeError

/-- `_load_overrides` (lines 218-238), uncached. Keys of a parsed JSON
object are already strings, so `str(key)` is the identity. -/
def load_overrides (w : World) : List (String × Bool) :=
  let raw_payload := pyStrip (w.override_env.getD "")
  if raw_payload == "" then []
  else
    match w.override_json with
    | none => []
    | some parsed =>
        match parsed with
        | .obj fields =>
            fields.foldl (fun overrides kv =>
              match as_bool_or_none kv.2 with
              | some bool_value => dictSet overrides kv.1 bool_value
              | none => overrides) []
        | _ => []

/-- The `lru_cache(maxsize=1)` wrapper around `_load_catalog`:
serve the memo slot when filled; otherwise compute, and memoize only a
normal return (`lru_cache` does not cache a raised exception). -/
def load_catalog_cached (w : World) (st : FlagState) :
    Except PyExn (List (String × Json) × FlagState) :=
  match st.catalog_cache with
  | some cached => .ok (cached, st)
  | none =>
      match load_catalog w.catalog_file with
      | .ok result => .ok (result, { st with catalog_cache := some result })
      | .error e => .error e

/-- The `lru_cache(maxsize=1)` wrapper around `_load_overrides`. -/
def load_overrides_cached (w : World) (st : FlagState) :
    List (String × Bool) × FlagState :=
  match st.overrides_cache with
  | some cached => (cached, st)
  | none =>
      let result := load_overrides w
      (result, { st with overrides_cache := some result })

/-- `refresh_feature_flag_state` (lines 241-249). -/
def refresh_feature_flag_state (_st : FlagState) : FlagState :=
  { catalog_cache := none
    overrides_cache := none
    unleash_cache_snapshot := []
    unleash_cache_expire_at := 0 }

/-- `is_feature_enabled` (lines 252-272). The `provider_value`
argument is the explicit caller-supplied value (typed `bool | None` in
the source but handled through `_as_bool_or_none`, hence any value). -/
def is_feature_enabled (w : World) (st : FlagState) (flag_key : String)
    (provider_value : Json) : Except PyExn (Bool × FlagState) :=
  match as_bool_or_none provider_value with
  | some provider_bool => .ok (provider_bool, st)
  | none =>
      match resolve_provider_decision w st flag_key with
      | (some provider_decision, st1) => .ok (provider_decision, st1)
      | (none, st1) =>
          let loaded := load_overrides_cached w st1
          match dictGet? loaded.1 flag_key with
          | some override_value => .ok (override_value, loaded.2)
          | none =>
              match load_catalog_cached w loaded.2 with
              | .error e => .error e
              | .ok (catalog, st3) =>
                  let local_flag := (dictGet? catalog flag_key).getD (.obj [])
                  let status := normalize_status ((jsonGet local_flag "status").getD .null)
                  .ok (decide (status ∈ ENABLED_STATUSES), st3)

/-- The catalog-layer decision (lines 270-272) as a function of the
loaded catalog index. -/
def catalog_decision (catalog : List (String × Json)) (flag_key : String) : Bool :=
  let local_flag := (dictGet? catalog flag_key).getD (.obj [])
  decide (normalize_status ((jsonGet local_flag "status").getD .null) ∈ ENABLED_STATUSES)

end FeatureFlags

/-- A `datetime.date`: year, month, day. Construction through
`date_fromisoformat` guarantees calendar validity. -/
structure PyDate where
  year : Nat
  month : Nat
  day : Nat
deriving Repr, DecidableEq

/-- Gregorian leap-year rule (as in `datetime`). -/
def isLeapYear (y : Nat) : Bool :=
  (y % 4 == 0 && y % 100 != 0) || y % 400 == 0

/-- Days in a month of a given year (as in `datetime`). -/
def daysInMonth (y m : Nat) : Nat :=
  if m == 2 then (if isLeapYear y then 29 else 28)
  else if m == 4 || m == 6 || m == 9 || m == 11 then 30
  else 31

/-- Python `date` comparison: lexicographic on (year, month, day). -/
def PyDate.lt (a b : PyDate) : Bool :=
  a.year < b.year ||
    (a.year == b.year &&
      (a.month < b.month || (a.month == b.month && a.day < b.day)))

/-- Left-pad a decimal rendering with zeros. -/
def padZeros (width n : Nat) : String :=
  let s := toString n
  if s.length < width then String.mk (List.replicate (width - s.length) '0') ++ s
  else s

/-- `date.isoformat()`: zero-padded `YYYY-MM-DD`. -/
def PyDate.isoformat (d : PyDate) : String :=
  padZeros 4 d.year ++ "-" ++ padZeros 2 d.month ++ "-" ++ padZeros 2 d.day

/-- `date.fromisoformat` on the canonical `YYYY-MM-DD` spelling, with
calendar validation (newer CPython additionally accepts other ISO-8601
spellings, which this catalog format does not use). -/
def date_fromisoformat (s : String) : Option PyDate :=
  match s.toList with
  | [y1, y2, y3, y4, h1, m1, m2, h2, d1, d2] =>
      if y1.isDigit && y2.isDigit && y3.isDigit && y4.isDigit &&
          h1 == '-' && m1.isDigit && m2.isDigit && h2 == '-' &&
          d1.isDigit && d2.isDigit then
        let y := ((y1.toNat - 48) * 10 + (y2.toNat - 48)) * 100 +
                 ((y3.toNat - 48) * 10 + (y4.toNat - 48))
        let m := (m1.toNat - 48) * 10 + (m2.toNat - 48)
        let d := (d1.toNat - 48) * 10 + (d2.toNat - 48)
        if 1 ≤ y && 1 ≤ m && m ≤ 12 && 1 ≤ d && d ≤ daysInMonth y m then
          some ⟨y, m, d⟩
        else none
      else none
  | _ => none

namespace CheckFeatureFlags

/-- `ALLOWED_TYPES` (check_feature_flags.py line 13). -/
def ALLOWED_TYPES : List String := ["release", "experiment", "kill-switch"]

/-- `ALLOWED_STATUS` (lines 14-21). -/
def ALLOWED_STATUS : List String :=
  ["draft", "enabled-dev", "enabled-staging", "enabled-prod", "cleanup-pending", "removed"]

/-- `ValidationError` dataclass (lines 24-26). -/
structure ValidationError where
  message : String
deriving Repr, DecidableEq

/-- `parse_iso_date` (lines 29-46), returning the parsed date and the
errors it appends (`raw = none` models an absent field, whose
`flag.get` returns `None` — not a `str`). -/
def parse_iso_date (raw : Option Json) (key field_name : String) :
    Option PyDate × List ValidationError :=
  match raw with
  | some (.str s) =>
      match date_fromisoformat s with
      | some parsed => (some parsed, [])
      | none =>
          (none, [⟨key ++ ": field \x27" ++ field_name ++ "\x27 is not a valid calendar date"⟩])
  | _ => (none, [⟨key ++ ": field \x27" ++ field_name ++ "\x27 must use YYYY-MM-DD"⟩])

/-- `get_flag_key` (lines 49-54). -/
def get_flag_key (flag : Json) : Option String × List ValidationError :=
  let key := pyStrip (pyStr ((jsonGet flag "key").getD (.str "")))
  if key == "" then (none, [⟨"invalid flag entry: missing non-empty \x27key\x27"⟩])
  else (some key, [])

/-- `validate_key` (lines 57-67), returning appended errors and the
updated `seen_keys` (on a duplicate the function returns before
`seen_keys.add`, which leaves the set unchanged as the key is already
a member). -/
def validate_key (key pfx : String) (seen_keys : List String) :
    List ValidationError × List String :=
  let pfx_errors :=
    if !pyStartsWith key (pfx ++ ".") then
      [⟨key ++ ": key must start with \x27" ++ pfx ++ ".\x27"⟩]
    else []
  if seen_keys.contains key then
    (pfx_errors ++ [⟨key ++ ": duplicate key detected"⟩], seen_keys)
  else (pfx_errors, key :: seen_keys)

/-- `validate_owner_type_status` (lines 70-86). -/
def validate_owner_type_status (key : String) (flag : Json) :
    String × List ValidationError :=
  let owner := pyStrip (pyStr ((jsonGet flag "owner").getD (.str "")))
  let raw_type := pyStrip (pyStr ((jsonGet flag "type").getD (.str "")))
  let status := pyStrip (pyStr ((jsonGet flag "status").getD (.str "")))
  let owner_errors :=
    if owner == "" then [⟨key ++ ": missing required field \x27owner\x27"⟩] else []
  let type_errors :=
    if !ALLOWED_TYPES.contains raw_type then
      [⟨key ++ ": invalid \x27type\x27 (" ++ (if raw_type == "" then "empty" else raw_type) ++ ")"⟩]
    else []
  let status_errors :=
    if !ALLOWED_STATUS.contains status then
      [⟨key ++ ": invalid \x27status\x27 (" ++ (if status == "" then "empty" else status) ++ ")"⟩]
    else []
  (status, owner_errors ++ type_errors ++ status_errors)

/-- The ordering-violation message of `validate_dates` (line 101). -/
def order_violation_msg (key : String) : String :=
  key ++ ": \x27removeBy\x27 cannot be before \x27createdAt\x27"

/-- The expiry-violation message of `validate_dates` (lines 105-106). -/
def expired_violation_msg (key : String) (remove_by : PyDate) (status : String) : String :=
  key ++ ": flag is expired (" ++ remove_by.isoformat ++
    ") and not removed (status=" ++ (if status == "" then "empty" else status) ++ ")"

/-- `validate_dates` (lines 89-107), returning the errors it appends
in source order: `createdAt` parse, `removeBy` parse, ordering check,
expiry check. -/
def validate_dates (key : String) (flag : Json) (status : String) (today : PyDate) :
    List ValidationError :=
  let created := parse_iso_date (jsonGet flag "createdAt") key "createdAt"
  let removed := parse_iso_date (jsonGet flag "removeBy") key "removeBy"
  let order_errors :=
    match created.1, removed.1 with
    | some created_at, some remove_by =>
        if PyDate.lt remove_by created_at then [⟨order_violation_msg key⟩]
        else []
    | _, _ => []
  let expired_errors :=
    match removed.1 with
    | some remove_by =>
        if status != "removed" && PyDate.lt remove_by today then
          [⟨expired_violation_msg key remove_by status⟩]
        else []
    | none => []
  created.2 ++ removed.2 ++ order_errors ++ expired_errors

/-- `validate_flag` (lines 110-129). -/
def validate_flag (flag : Json) (pfx : String) (today : PyDate)
    (seen_keys : List String) : List ValidationError × List String :=
  match flag with
  | .obj _ =>
      match get_flag_key flag with
      | (some key, key_errors) =>
          let keyed := validate_key key pfx seen_keys
          let ots := validate_owner_type_status key flag
          let date_errors := validate_dates key flag ots.1 today
          (key_errors ++ keyed.1 ++ ots.2 ++ date_errors, keyed.2)
      | (none, key_errors) => (key_errors, seen_keys)
  | _ => ([⟨"invalid flag entry: every item must be an object"⟩], seen_keys)

/-- `validate_flags` (lines 132-140); `date.today()` is the ambient
`today` argument. -/
def validate_flags (flags : List Json) (pfx : String) (today : PyDate) :
    List ValidationError :=
  (flags.foldl (fun acc flag =>
    let step := validate_flag flag pfx today acc.2
    (acc.1 ++ step.1, step.2)) (([] : List ValidationError), ([] : List String))).1

/-- `load_flags` (lines 143-151): a missing file raises
`FileNotFoundError` from `read_text`, invalid JSON raises from
`json.loads`, a non-dict top level raises `AttributeError` from
`parsed.get`, and an absent or non-list `flags` member raises the
`ValueError` the script itself constructs. -/
def load_flags (file : FeatureFlags.FileState) : Except PyExn (List Json) :=
  match file with
  | .missing => .error .fileNotFoundError
  | .malformed => .error .jsonDecodeError
  | .content parsed =>
      match parsed with
      | .obj fields =>
          match jsonGet (.obj fields) "flags" with
          | some (.arr flags) => .ok flags
          | _ => .error (.valueError "catalog must contain a top-level \x27flags\x27 array")
      | _ => .error .attributeError

/-- `str(exc)` for the exceptions `main` can catch. Only the
`ValueError` text comes from the script itself; the other arms
approximate the interpreter wording (their exact text is irrelevant to
the claims, which constrain only the line structure). -/
def exn_message : PyExn → String
  | .valueError msg => msg
  | .jsonDecodeError => "Expecting value: line 1 column 1 (char 0)"
  | .fileNotFoundError => "[Errno 2] No such file or directory"
  | .attributeError => "object has no attribute \x27get\x27"

/-- Observable outcome of one `main()` run: the returned exit code
(raised as `SystemExit`), the lines printed to stdout, and the lines
printed to stderr. -/
structure MainResult where
  exit_code : Nat
  stdout_lines : List String
  stderr_lines : List String
deriving Repr, DecidableEq

/-- `main` (lines 154-173); `date.today()` is the ambient `today`. -/
def main (file : FeatureFlags.FileState) (today : PyDate) : MainResult :=
  match load_flags file with
  | .error exc =>
      ⟨1, [], ["[feature-flags-hygiene] FAILED", " - " ++ exn_message exc]⟩
  | .ok flags =>
      let errors := validate_flags flags "api" today
      if errors.isEmpty then
        ⟨0, ["[feature-flags-hygiene] OK (" ++ toString flags.length ++ " flags)"], []⟩
      else
        ⟨1, [], "[feature-flags-hygiene] FAILED" :: errors.map (fun e => " - " ++ e.message)⟩

/-- The expiry message never coincides with the ordering message (for
any key, date and status): after the shared `key` prefix they diverge
at the third character. -/
lemma expired_msg_ne_order_msg (key : String) (remove_by : PyDate) (status : String) :
    expired_violation_msg key remove_by status ≠ order_violation_msg key := by
  intro h
  have hd := congrArg String.data h
  simp only [expired_violation_msg, order_violation_msg, String.data_append,
    List.append_assoc] at hd
  have h2 := List.append_cancel_left hd
  have h3 := congrArg (List.take 3) h2
  rw [List.take_append_of_le_length (by decide)] at h3
  exact absurd h3 (by decide)

/-- `validate_dates` on an entry whose two date fields parse: the
parse layers contribute nothing and the result is exactly the ordering
check followed by the expiry check. -/
lemma validate_dates_eq (key : String) (flag : Json) (status : String)
    (today created_at remove_by : PyDate)
    (hc : parse_iso_date (jsonGet flag "createdAt") key "createdAt" = (some created_at, []))
    (hr : parse_iso_date (jsonGet flag "removeBy") key "removeBy" = (some remove_by, [])) :
    validate_dates key flag status today =
      (if PyDate.lt remove_by created_at then [⟨order_violation_msg key⟩] else []) ++
      (if status != "removed" && PyDate.lt remove_by today then
        [⟨expired_violation_msg key remove_by status⟩] else []) := by
  unfold validate_dates
  rw [hc, hr]
  simp

end CheckFeatureFlags

/-! ## Helper lemmas -/

namespace FeatureFlags

lemma resolve_provider_decision_eq (w : World) (st : FlagState) (k : String)
    (snap : List (String × Bool)) (st1 : FlagState)
    (h : fetch_unleash_snapshot w st = (snap, st1)) :
    resolve_provider_decision w st k = (dictGet? snap k, st1) := by
  simp [resolve_provider_decision, h]

lemma feh_explicit (w : World) (st : FlagState) (k : String) (ex : Json) (b : Bool)
    (h : as_bool_or_none ex = some b) :
    is_feature_enabled w st k ex = .ok (b, st) := by
  simp only [is_feature_enabled, h]

lemma feh_provider (w : World) (st : FlagState) (k : String) (ex : Json) (b : Bool)
    (st1 : FlagState)
    (hex : as_bool_or_none ex = none)
    (hp : resolve_provider_decision w st k = (some b, st1)) :
    is_feature_enabled w st k ex = .ok (b, st1) := by
  simp only [is_feature_enabled, hex, hp]

lemma feh_override (w : World) (st : FlagState) (k : String) (ex : Json)
    (st1 : FlagState) (ovr : List (String × Bool)) (st2 : FlagState) (b : Bool)
    (hex : as_bool_or_none ex = none)
    (hp : resolve_provider_decision w st k = (none, st1))
    (hlo : load_overrides_cached w st1 = (ovr, st2))
    (hov : dictGet? ovr k = some b) :
    is_feature_enabled w st k ex = .ok (b, st2) := by
  simp only [is_feature_enabled, hex, hp, hlo, hov]

lemma feh_catalog (w : World) (st : FlagState) (k : String) (ex : Json)
    (st1 : FlagState) (ovr : List (String × Bool)) (st2 : FlagState)
    (cat : List (String × Json)) (st3 : FlagState)
    (hex : as_bool_or_none ex = none)
    (hp : resolve_provider_decision w st k = (none, st1))
    (hlo : load_overrides_cached w st1 = (ovr, st2))
    (hov : dictGet? ovr k = none)
    (hcat : load_catalog_cached w st2 = .ok (cat, st3)) :
    is_feature_enabled w st k ex = .ok (catalog_decision cat k, st3) := by
  simp only [is_feature_enabled, hex, hp, hlo, hov, hcat, catalog_decision]

lemma feh_catalog_error (w : World) (st : FlagState) (k : String) (ex : Json)
    (st1 : FlagState) (ovr : List (String × Bool)) (st2 : FlagState) (e : PyExn)
    (hex : as_bool_or_none ex = none)
    (hp : resolve_provider_decision w st k = (none, st1))
    (hlo : load_overrides_cached w st1 = (ovr, st2))
    (hov : dictGet? ovr k = none)
    (hcat : load_catalog_cached w st2 = .error e) :
    is_feature_enabled w st k ex = .error e := by
  simp only [is_feature_enabled, hex, hp, hlo, hov, hcat]

lemma catalog_decision_absent (cat : List (String × Json)) (k : String)
    (h : dictGet? cat k = none) : catalog_decision cat k = false := by
  simp only [catalog_decision, h, jsonGet, normalize_status, pyTruthy, pyStr]
  decide

lemma as_bool_or_none_str_true (s : String)
    (h : pyLower (pyStrip s) ∈ ["1", "true", "yes", "on"]) :
    as_bool_or_none (.str s) = some true := by
  simp only [as_bool_or_none, pyStr]
  rw [if_pos h]

lemma as_bool_or_none_str_false (s : String)
    (h : pyLower (pyStrip s) ∈ ["0", "false", "no", "off"]) :
    as_bool_or_none (.str s) = some false := by
  have hnot : pyLower (pyStrip s) ∉ ["1", "true", "yes", "on"] := by
    intro hmem
    simp only [List.mem_cons, List.not_mem_nil, or_false] at h hmem
    rcases h with h | h | h | h <;> rcases hmem with hm | hm | hm | hm <;>
      rw [h] at hm <;> exact absurd hm (by decide)
  simp only [as_bool_or_none, pyStr]
  rw [if_neg hnot, if_pos h]

end FeatureFlags

namespace FeatureFlags

lemma dictGet?_dictSet_self {β : Type} (d : List (String × β)) (k : String) (v : β) :
    dictGet? (dictSet d k v) k = some v := by
  induction d with
  | nil => simp [dictSet, dictGet?]
  | cons kv rest ih =>
      by_cases h : kv.1 == k
      · simp [dictSet, h, dictGet?]
      · simp only [dictSet, h, if_false, Bool.false_eq_true]
        simp only [dictGet?, List.find?_cons, h]
        exact ih

lemma dictGet?_dictSet_other {β : Type} (d : List (String × β)) (k : String) (v : β)
    (q : String) (hq : q ≠ k) :
    dictGet? (dictSet d k v) q = dictGet? d q := by
  have hkq : (k == q) = false := beq_eq_false_iff_ne.mpr (fun h => hq h.symm)
  induction d with
  | nil => simp [dictSet, dictGet?, List.find?, hkq]
  | cons kv rest ih =>
      by_cases h : kv.1 == k
      · have h1 : kv.1 = k := eq_of_beq h
        have h2 : (kv.1 == q) = false := beq_eq_false_iff_ne.mpr (by rw [h1]; exact fun hx => hq hx.symm)
        simp [dictSet, h, dictGet?, List.find?_cons, hkq, h2]
      · simp only [dictSet, h, if_false, Bool.false_eq_true]
        simp only [dictGet?, List.find?_cons] at ih ⊢
        cases hx : (kv.1 == q) with
        | true => rfl
        | false => exact ih

/-- Lookup through the `by_key` fold of `_load_catalog`: the index
maps `k` to the last flag (in list order) whose computed key is `k`,
and leaves anything else to the accumulator. -/
lemma catalog_foldl_lookup (flags : List Json) (acc : List (String × Json)) (k : String) :
    dictGet? (flags.foldl (fun by_key flag =>
        match flag_key_of flag with
        | some key => dictSet by_key key flag
        | none => by_key) acc) k =
      match flags.reverse.find? (fun f => flag_key_of f == some k) with
      | some f => some f
      | none => dictGet? acc k := by
  induction flags generalizing acc with
  | nil => simp
  | cons f rest ih =>
      rw [List.foldl_cons, ih, List.reverse_cons, List.find?_append]
      cases hrest : rest.reverse.find? (fun f => flag_key_of f == some k) with
      | some f' => rfl
      | none =>
          simp only [Option.none_or]
          cases hkey : flag_key_of f with
          | none => simp [List.find?, hkey]
          | some key =>
              by_cases hk : key = k
              · subst hk
                simp [List.find?, hkey, dictGet?_dictSet_self]
              · have hne : (some key == some k) = false :=
                  beq_eq_false_iff_ne.mpr (by simpa using hk)
                simp [List.find?, hkey, hne, dictGet?_dictSet_other _ _ _ _ (Ne.symm hk)]

/-- Lookup through the override-building fold of `_load_overrides`,
for a field list with pairwise-distinct keys (as `json.loads`
produces): the result maps `k` to the boolean parse of the entry at
`k` (dropped when not boolean-like), and anything else to the
accumulator. -/
lemma overrides_foldl_lookup (fields : List (String × Json)) (acc : List (String × Bool))
    (k : String) (hnd : (fields.map Prod.fst).Nodup)
    (hacc : ∀ q ∈ fields.map Prod.fst, dictGet? acc q = none) :
    dictGet? (fields.foldl (fun overrides kv =>
        match as_bool_or_none kv.2 with
        | some bool_value => dictSet overrides kv.1 bool_value
        | none => overrides) acc) k =
      match fields.find? (fun kv => kv.1 == k) with
      | some kv => as_bool_or_none kv.2
      | none => dictGet? acc k := by
  induction fields generalizing acc with
  | nil => simp
  | cons kv rest ih =>
      simp only [List.map_cons, List.nodup_cons, List.mem_map] at hnd
      obtain ⟨hnotin, hnd'⟩ := hnd
      have hacc0 : dictGet? acc kv.1 = none := hacc kv.1 (by simp)
      have hacc' : ∀ q ∈ rest.map Prod.fst,
          dictGet? (match as_bool_or_none kv.2 with
            | some bool_value => dictSet acc kv.1 bool_value
            | none => acc) q = none := by
        intro q hq
        have hqne : q ≠ kv.1 := by
          rintro rfl
          exact hnotin (by simpa using hq)
        have hmem : q ∈ List.map Prod.fst (kv :: rest) := by
          rw [List.map_cons]
          exact List.mem_cons_of_mem _ hq
        cases hab : as_bool_or_none kv.2 with
        | none => exact hacc q hmem
        | some b =>
            rw [dictGet?_dictSet_other _ _ _ _ hqne]
            exact hacc q hmem
      rw [List.foldl_cons, ih _ hnd' hacc']
      by_cases hk : kv.1 = k
      · subst hk
        have hrest : rest.find? (fun p => p.1 == kv.1) = none := by
          rw [List.find?_eq_none]
          intro x hx hpx
          exact hnotin ⟨x, hx, eq_of_beq hpx⟩
        rw [hrest]
        simp only [List.find?, beq_self_eq_true]
        cases hab : as_bool_or_none kv.2 with
        | none => rw [hacc0]
        | some b => rw [dictGet?_dictSet_self]
      · have hne : (kv.1 == k) = false := beq_eq_false_iff_ne.mpr hk
        simp only [List.find?, hne]
        cases hfind : rest.find? (fun p => p.1 == k) with
        | some p => rfl
        | none =>
            cases hab : as_bool_or_none kv.2 with
            | none => rfl
            | some b => exact dictGet?_dictSet_other _ _ _ _ (Ne.symm hk)

end FeatureFlags

/-! ## Claim theorems -/

namespace Claims

open FeatureFlags

/-- C1: for every flag key and every state of the three sources,
`is_feature_enabled` consults the sources in strict precedence order:
a well-formed explicit argument is returned first; otherwise a
provider-snapshot value for the key, if present; otherwise the
override-map value for the key, if present; otherwise the catalog
status decides; with no source containing the key the result is
false. -/
theorem c1_resolution_precedence (w : World) (st : FlagState) (k : String) (ex : Json)
    (snap : List (String × Bool)) (st1 : FlagState)
    (ovr : List (String × Bool)) (st2 : FlagState)
    (hfetch : fetch_unleash_snapshot w st = (snap, st1))
    (hovr : load_overrides_cached w st1 = (ovr, st2)) :
    (∀ b, as_bool_or_none ex = some b → is_feature_enabled w st k ex = .ok (b, st)) ∧
    (∀ b, as_bool_or_none ex = none → dictGet? snap k = some b →
        is_feature_enabled w st k ex = .ok (b, st1)) ∧
    (∀ b, as_bool_or_none ex = none → dictGet? snap k = none → dictGet? ovr k = some b →
        is_feature_enabled w st k ex = .ok (b, st2)) ∧
    (∀ cat st3, as_bool_or_none ex = none → dictGet? snap k = none → dictGet? ovr k = none →
        load_catalog_cached w st2 = .ok (cat, st3) →
        is_feature_enabled w st k ex = .ok (catalog_decision cat k, st3)) ∧
    (∀ cat st3, as_bool_or_none ex = none → dictGet? snap k = none → dictGet? ovr k = none →
        load_catalog_cached w st2 = .ok (cat, st3) → dictGet? cat k = none →
        is_feature_enabled w st k ex = .ok (false, st3)) := by
  refine ⟨fun b hb => feh_explicit w st k ex b hb, ?_, ?_, ?_, ?_⟩
  · intro b hex hsnap
    exact feh_provider w st k ex b st1 hex
      (resolve_provider_decision_eq w st k snap st1 hfetch ▸ by rw [hsnap])
  · intro b hex hsnap hov
    refine feh_override w st k ex st1 ovr st2 b hex ?_ hovr hov
    rw [resolve_provider_decision_eq w st k snap st1 hfetch, hsnap]
  · intro cat st3 hex hsnap hov hcat
    refine feh_catalog w st k ex st1 ovr st2 cat st3 hex ?_ hovr hov hcat
    rw [resolve_provider_decision_eq w st k snap st1 hfetch, hsnap]
  · intro cat st3 hex hsnap hov hcat habsent
    have h := feh_catalog w st k ex st1 ovr st2 cat st3 hex
      (by rw [resolve_provider_decision_eq w st k snap st1 hfetch, hsnap]) hovr hov hcat
    rwa [catalog_decision_absent cat k habsent] at h

/-- C1 witness: with every source empty, the key resolves to false. -/
theorem c1_resolution_precedence_witness :
    is_feature_enabled ⟨none, none, none, none, none, .missing, .urlError, 0, 30⟩
      ⟨none, none, [], 0⟩ "api.tools.x" .null = .ok (false, ⟨some [], some [], [], 0⟩) :=
  (c1_resolution_precedence ⟨none, none, none, none, none, .missing, .urlError, 0, 30⟩
      ⟨none, none, [], 0⟩ "api.tools.x" .null [] ⟨none, none, [], 0⟩
      [] ⟨none, some [], [], 0⟩ rfl rfl).2.2.2.2 [] ⟨some [], some [], [], 0⟩
    rfl rfl rfl rfl rfl

/-- C3: when the explicit argument is not well-formed and neither the
provider snapshot nor the override map contains the key, the result is
true iff the normalized (stripped, lower-cased) catalog entry status
is in the fixed enabled set, and false when the key is absent from the
catalog. -/
theorem c3_catalog_status (w : World) (st : FlagState) (k : String) (ex : Json)
    (snap : List (String × Bool)) (st1 : FlagState)
    (ovr : List (String × Bool)) (st2 : FlagState)
    (cat : List (String × Json)) (st3 : FlagState)
    (hfetch : fetch_unleash_snapshot w st = (snap, st1))
    (hovr : load_overrides_cached w st1 = (ovr, st2))
    (hex : as_bool_or_none ex = none)
    (hsnap : dictGet? snap k = none)
    (hov : dictGet? ovr k = none)
    (hcat : load_catalog_cached w st2 = .ok (cat, st3)) :
    (∀ flag, dictGet? cat k = some flag →
        is_feature_enabled w st k ex =
          .ok (decide (normalize_status ((jsonGet flag "status").getD .null) ∈
                        ENABLED_STATUSES), st3)) ∧
    (dictGet? cat k = none → is_feature_enabled w st k ex = .ok (false, st3)) := by
  have hp : resolve_provider_decision w st k = (none, st1) := by
    rw [resolve_provider_decision_eq w st k snap st1 hfetch, hsnap]
  have hmain := feh_catalog w st k ex st1 ovr st2 cat st3 hex hp hovr hov hcat
  constructor
  · intro flag hflag
    rw [hmain]
    simp [catalog_decision, hflag]
  · intro habsent
    rwa [catalog_decision_absent cat k habsent] at hmain

/-- C3 witness: a catalog entry with status `" Active "` resolves to
true through `is_feature_enabled` with empty higher-precedence
sources. -/
theorem c3_catalog_status_witness :
    is_feature_enabled
        ⟨none, none, none, none, none,
          .content (.obj [("flags", .arr [.obj [("key", .str "api.a"), ("status", .str " Active ")]])]),
          .urlError, 0, 30⟩
        ⟨none, none, [], 0⟩ "api.a" .null =
      .ok (true, ⟨some [("api.a", .obj [("key", .str "api.a"), ("status", .str " Active ")])],
                  some [], [], 0⟩) := by
  have h := (c3_catalog_status
      ⟨none, none, none, none, none,
        .content (.obj [("flags", .arr [.obj [("key", .str "api.a"), ("status", .str " Active ")]])]),
        .urlError, 0, 30⟩
      ⟨none, none, [], 0⟩ "api.a" .null [] ⟨none, none, [], 0⟩
      [] ⟨none, some [], [], 0⟩
      [("api.a", .obj [("key", .str "api.a"), ("status", .str " Active ")])]
      ⟨some [("api.a", .obj [("key", .str "api.a"), ("status", .str " Active ")])], some [], [], 0⟩
      rfl rfl rfl rfl rfl rfl).1
      (.obj [("key", .str "api.a"), ("status", .str " Active ")]) rfl
  rw [h]
  rfl

/-- C4: a boolean explicit argument, or a string one whose trimmed
lower-cased form is a recognized token, decides the call immediately
(independently of every other source and without touching any cache),
while any other explicit value falls through to the remaining
sources. -/
theorem c4_explicit_argument (w : World) (st : FlagState) (k : String) :
    (∀ b : Bool, is_feature_enabled w st k (.bool b) = .ok (b, st)) ∧
    (∀ s : String, pyLower (pyStrip s) ∈ ["1", "true", "yes", "on"] →
        is_feature_enabled w st k (.str s) = .ok (true, st)) ∧
    (∀ s : String, pyLower (pyStrip s) ∈ ["0", "false", "no", "off"] →
        is_feature_enabled w st k (.str s) = .ok (false, st)) ∧
    (∀ ex, as_bool_or_none ex = none →
        is_feature_enabled w st k ex = is_feature_enabled w st k .null) := by
  refine ⟨fun b => feh_explicit w st k (.bool b) b rfl,
    fun s hs => feh_explicit w st k (.str s) true (as_bool_or_none_str_true s hs),
    fun s hs => feh_explicit w st k (.str s) false (as_bool_or_none_str_false s hs),
    fun ex hex => ?_⟩
  simp only [is_feature_enabled, hex]
  rfl

/-- C5: when the provider mode is active but the configured fetch
fails — any of the caught network/timeout/decode exceptions, or a
non-200 HTTP status — the fetch yields an empty snapshot and leaves
the cache untouched, and resolution of every key coincides with
resolution under an inactive provider mode: the override map and
catalog alone decide. (`hfail` states that the network outcome is not
a 200 response; `hexp` states the cache is not being served, i.e. a
fetch actually happens.) -/
theorem c5_fetch_failure_equals_inactive (w : World) (st : FlagState)
    (hmode : get_provider_mode w = "unleash")
    (hurl : get_unleash_url w ≠ "")
    (hexp : ¬ w.now < st.unleash_cache_expire_at)
    (hfail : ∀ status payload, w.net = .ok status payload → status ≠ 200) :
    fetch_unleash_snapshot w st = ([], st) ∧
    fetch_unleash_snapshot { w with flag_provider_env := some "local" } st = ([], st) ∧
    (∀ k ex, is_feature_enabled w st k ex =
        is_feature_enabled { w with flag_provider_env := some "local" } st k ex) := by
  have hA : fetch_unleash_snapshot w st = ([], st) := by
    unfold fetch_unleash_snapshot
    rw [if_neg (by simp [hmode]), if_neg (by simp [hurl]), if_neg hexp]
    cases hnet : w.net with
    | urlError => rfl
    | timeoutError => rfl
    | unicodeDecodeError => rfl
    | jsonDecodeError => rfl
    | ok status payload =>
        have hne := hfail status payload hnet
        simp [hne]
  have hB : fetch_unleash_snapshot { w with flag_provider_env := some "local" } st =
      ([], st) := rfl
  refine ⟨hA, hB, fun k ex => ?_⟩
  unfold is_feature_enabled
  rw [resolve_provider_decision_eq w st k [] st hA,
    resolve_provider_decision_eq { w with flag_provider_env := some "local" } st k [] st hB]
  rfl

/-- C5 witness: a network error under active provider mode resolves a
key exactly as the inactive mode does. -/
theorem c5_fetch_failure_equals_inactive_witness :
    is_feature_enabled
        ⟨some "unleash", some "https://flags.local", none, none, none, .missing, .urlError, 0, 30⟩
        ⟨none, none, [], 0⟩ "api.a" .null =
      is_feature_enabled
        ⟨some "local", some "https://flags.local", none, none, none, .missing, .urlError, 0, 30⟩
        ⟨none, none, [], 0⟩ "api.a" .null :=
  (c5_fetch_failure_equals_inactive
      ⟨some "unleash", some "https://flags.local", none, none, none, .missing, .urlError, 0, 30⟩
      ⟨none, none, [], 0⟩ rfl (by decide) (by decide)
      (fun _ _ h => nomatch h)).2.2 "api.a" .null

/-- C7: `refresh_feature_flag_state` clears all three caches — the
catalog memo, the override memo, and the provider snapshot with its
expiry timestamp — so the next override and catalog accesses recompute
from their sources, and the next provider fetch performs the network
request (no cached snapshot is served) no matter how much TTL the
pre-refresh state had left. -/
theorem c7_refresh_clears_all_caches (st : FlagState) :
    refresh_feature_flag_state st =
      { catalog_cache := none, overrides_cache := none,
        unleash_cache_snapshot := [], unleash_cache_expire_at := 0 } ∧
    (∀ w : World, load_overrides_cached w (refresh_feature_flag_state st) =
        (load_overrides w,
          { catalog_cache := none, overrides_cache := some (load_overrides w),
            unleash_cache_snapshot := [], unleash_cache_expire_at := 0 })) ∧
    (∀ (w : World) (cat : List (String × Json)), load_catalog w.catalog_file = .ok cat →
        load_catalog_cached w (refresh_feature_flag_state st) =
          .ok (cat,
            { catalog_cache := some cat, overrides_cache := none,
              unleash_cache_snapshot := [], unleash_cache_expire_at := 0 })) ∧
    (∀ w : World, get_provider_mode w = "unleash" → get_unleash_url w ≠ "" → 0 ≤ w.now →
        ∀ status payload, w.net = .ok status payload → status = 200 →
          fetch_unleash_snapshot w (refresh_feature_flag_state st) =
            (parse_unleash_payload payload,
              { catalog_cache := none, overrides_cache := none,
                unleash_cache_snapshot := parse_unleash_payload payload,
                unleash_cache_expire_at := w.now + w.ttl })) := by
  refine ⟨rfl, fun w => rfl, fun w cat h => ?_, fun w hmode hurl hnow status payload hnet h200 => ?_⟩
  · unfold load_catalog_cached
    simp [refresh_feature_flag_state, h]
  · subst h200
    unfold fetch_unleash_snapshot
    rw [if_neg (by simp [hmode]), if_neg (by simp [hurl]),
      if_neg (show ¬ w.now < (refresh_feature_flag_state st).unleash_cache_expire_at from
        not_lt.mpr hnow), hnet]
    rfl

/-- C7 witness: after a refresh of a fully-populated state, an active
provider fetch re-requests and installs the fresh snapshot. -/
theorem c7_refresh_clears_all_caches_witness :
    fetch_unleash_snapshot
        ⟨some "unleash", some "https://flags.local", none, none, none, .missing,
          .ok 200 (.obj [("features", .arr [.obj [("name", .str "k"), ("enabled", .bool true)]])]),
          0, 30⟩
        (refresh_feature_flag_state ⟨some [], some [("k", false)], [("k", false)], 1000⟩) =
      ([("k", true)],
        { catalog_cache := none, overrides_cache := none,
          unleash_cache_snapshot := [("k", true)],
          unleash_cache_expire_at := (0 : Rat) + 30 }) :=
  (c7_refresh_clears_all_caches ⟨some [], some [("k", false)], [("k", false)], 1000⟩).2.2.2
    ⟨some "unleash", some "https://flags.local", none, none, none, .missing,
      .ok 200 (.obj [("features", .arr [.obj [("name", .str "k"), ("enabled", .bool true)]])]),
      0, 30⟩
    rfl (by decide) (by decide) 200
    (.obj [("features", .arr [.obj [("name", .str "k"), ("enabled", .bool true)]])]) rfl rfl

/-- C6: parsing the override environment variable never fails as a
whole: an absent or blank variable, non-JSON content (`json.loads`
raises, caught), or a JSON non-object each yield an empty override
map, and inside a JSON object every entry with a boolean-like value is
kept under its key while every other entry is dropped individually
(field lists produced by `json.loads` have pairwise-distinct keys,
hence the `Nodup` hypothesis). -/
theorem c6_override_parsing (w : World) :
    (w.override_env = none → load_overrides w = []) ∧
    (∀ s, w.override_env = some s → pyStrip s = "" → load_overrides w = []) ∧
    (∀ s, w.override_env = some s → pyStrip s ≠ "" → w.override_json = none →
        load_overrides w = []) ∧
    (∀ s j, w.override_env = some s → pyStrip s ≠ "" → w.override_json = some j →
        (∀ fields, j ≠ .obj fields) → load_overrides w = []) ∧
    (∀ s fields, w.override_env = some s → pyStrip s ≠ "" →
        w.override_json = some (.obj fields) → (fields.map Prod.fst).Nodup →
        ∀ k, dictGet? (load_overrides w) k =
          match fields.find? (fun kv => kv.1 == k) with
          | some kv => as_bool_or_none kv.2
          | none => none) := by
  refine ⟨fun h => ?_, fun s h hs => ?_, fun s h hs hj => ?_,
    fun s j h hs hj hobj => ?_, fun s fields h hs hj hnd k => ?_⟩
  · unfold load_overrides
    rw [h]
    rfl
  · unfold load_overrides
    rw [h]
    simp [hs]
  · unfold load_overrides
    rw [h, if_neg (by simpa using hs), hj]
  · unfold load_overrides
    rw [h, if_neg (by simpa using hs), hj]
    cases j with
    | obj fields => exact absurd rfl (hobj fields)
    | null => rfl
    | bool b => rfl
    | num n => rfl
    | str s => rfl
    | arr items => rfl
  · unfold load_overrides
    rw [h, if_neg (by simpa using hs), hj]
    exact overrides_foldl_lookup fields [] k hnd (fun q _ => rfl)

/-- C6 witness: of the two entries in the parsed override object, the
boolean-like one is kept and the non-boolean-like one is dropped. -/
theorem c6_override_parsing_witness :
    dictGet? (load_overrides
        ⟨none, none, none, some "\x7b\"a\": \"1\", \"b\": \"nah\"\x7d",
          some (.obj [("a", .str "1"), ("b", .str "nah")]), .missing, .urlError, 0, 30⟩) "a" =
      some true ∧
    dictGet? (load_overrides
        ⟨none, none, none, some "\x7b\"a\": \"1\", \"b\": \"nah\"\x7d",
          some (.obj [("a", .str "1"), ("b", .str "nah")]), .missing, .urlError, 0, 30⟩) "b" =
      none := by
  have h := (c6_override_parsing
      ⟨none, none, none, some "\x7b\"a\": \"1\", \"b\": \"nah\"\x7d",
        some (.obj [("a", .str "1"), ("b", .str "nah")]), .missing, .urlError, 0, 30⟩).2.2.2.2
      "\x7b\"a\": \"1\", \"b\": \"nah\"\x7d" [("a", .str "1"), ("b", .str "nah")]
      rfl (by decide) rfl (by decide)
  exact ⟨by rw [h "a"]; rfl, by rw [h "b"]; rfl⟩

/-- C10: when several catalog entries share the same non-empty key,
the runtime index maps that key to the last such entry in file order;
every indexed value is an entry whose own computed key is the lookup
key, so entries with an empty or missing key never appear. -/
theorem c10_duplicate_keys_last_wins (fields : List (String × Json)) (flags : List Json)
    (hflags : jsonGet (.obj fields) "flags" = some (.arr flags)) :
    load_catalog (.content (.obj fields)) = .ok (catalog_by_key flags) ∧
    (∀ k, dictGet? (catalog_by_key flags) k =
        flags.reverse.find? (fun f => flag_key_of f == some k)) ∧
    (∀ k f, dictGet? (catalog_by_key flags) k = some f → flag_key_of f = some k) := by
  have h2 : ∀ k, dictGet? (catalog_by_key flags) k =
      flags.reverse.find? (fun f => flag_key_of f == some k) := by
    intro k
    unfold catalog_by_key
    rw [catalog_foldl_lookup flags [] k]
    cases flags.reverse.find? (fun f => flag_key_of f == some k) with
    | some f => rfl
    | none => rfl
  refine ⟨?_, h2, fun k f hf => ?_⟩
  · show (match (jsonGet (.obj fields) "flags").getD (.arr []) with
      | .arr flags => Except.ok (catalog_by_key flags)
      | _ => Except.ok ([] : List (String × Json))) = Except.ok (catalog_by_key flags)
    rw [hflags]
    rfl
  · rw [h2 k] at hf
    have hp := List.find?_some (p := fun f => flag_key_of f == some k) hf
    exact eq_of_beq hp

/-- C10 witness: with two entries sharing the key `"api.a"`, the index
returns the second, and a keyless entry contributes nothing. -/
theorem c10_duplicate_keys_last_wins_witness :
    dictGet? (catalog_by_key
        [.obj [("key", .str "api.a"), ("status", .str "active")],
         .obj [("owner", .str "nobody")],
         .obj [("key", .str "api.a"), ("status", .str "removed")]]) "api.a" =
      some (.obj [("key", .str "api.a"), ("status", .str "removed")]) := by
  rw [(c10_duplicate_keys_last_wins
      [("flags", .arr
        [.obj [("key", .str "api.a"), ("status", .str "active")],
         .obj [("owner", .str "nobody")],
         .obj [("key", .str "api.a"), ("status", .str "removed")]])]
      [.obj [("key", .str "api.a"), ("status", .str "active")],
       .obj [("owner", .str "nobody")],
       .obj [("key", .str "api.a"), ("status", .str "removed")]] rfl).2.1 "api.a"]
  rfl

/-- C2 counterexample: with a catalog file whose content is not valid
JSON, `_load_catalog` does not yield an empty catalog — the
`json.loads` exception escapes (there is no `try` around it), and it
reaches the caller of `is_feature_enabled`, refuting the claim at this
input. -/
theorem c2_counterexample_malformed_raises :
    load_catalog .malformed = .error .jsonDecodeError ∧
    is_feature_enabled ⟨none, none, none, none, none, .malformed, .urlError, 0, 30⟩
      ⟨none, none, [], 0⟩ "api.a" .null = .error .jsonDecodeError :=
  ⟨rfl, rfl⟩

/-- C2 (amended): catalog loading is fail-soft only for a missing file
and for a parsed object whose `flags` member is absent or not a list —
those yield an empty catalog; but malformed JSON content raises
`json.JSONDecodeError`, a non-object top level raises
`AttributeError`, and with a cold catalog cache the exception
propagates to the caller of `is_feature_enabled` whenever resolution
reaches the catalog layer. -/
theorem c2_amended_catalog_failsoft :
    load_catalog .missing = .ok [] ∧
    (∀ fields j, jsonGet (.obj fields) "flags" = some j → (∀ xs, j ≠ .arr xs) →
        load_catalog (.content (.obj fields)) = .ok []) ∧
    (∀ fields, jsonGet (.obj fields) "flags" = none →
        load_catalog (.content (.obj fields)) = .ok []) ∧
    load_catalog .malformed = .error .jsonDecodeError ∧
    (∀ payload, (∀ fields, payload ≠ .obj fields) →
        load_catalog (.content payload) = .error .attributeError) ∧
    (∀ (w : World) (st : FlagState) (k : String) (ex : Json)
        (snap : List (String × Bool)) (st1 : FlagState)
        (ovr : List (String × Bool)) (st2 : FlagState) (e : PyExn),
        as_bool_or_none ex = none →
        fetch_unleash_snapshot w st = (snap, st1) → dictGet? snap k = none →
        load_overrides_cached w st1 = (ovr, st2) → dictGet? ovr k = none →
        st2.catalog_cache = none → load_catalog w.catalog_file = .error e →
        is_feature_enabled w st k ex = .error e) := by
  refine ⟨rfl, fun fields j hj hnotarr => ?_, fun fields hj => ?_, rfl,
    fun payload hobj => ?_, ?_⟩
  · show (match (jsonGet (.obj fields) "flags").getD (.arr []) with
      | .arr flags => Except.ok (catalog_by_key flags)
      | _ => Except.ok ([] : List (String × Json))) = Except.ok []
    rw [hj]
    cases j with
    | arr xs => exact absurd rfl (hnotarr xs)
    | null => rfl
    | bool b => rfl
    | num n => rfl
    | str s => rfl
    | obj fs => rfl
  · show (match (jsonGet (.obj fields) "flags").getD (.arr []) with
      | .arr flags => Except.ok (catalog_by_key flags)
      | _ => Except.ok ([] : List (String × Json))) = Except.ok []
    rw [hj]
    rfl
  · cases payload with
    | obj fs => exact absurd rfl (hobj fs)
    | null => rfl
    | bool b => rfl
    | num n => rfl
    | str s => rfl
    | arr xs => rfl
  · intro w st k ex snap st1 ovr st2 e hex hfetch hsnap hovr hov hnone herr
    have hcat : load_catalog_cached w st2 = .error e := by
      unfold load_catalog_cached
      rw [hnone, herr]
    exact feh_catalog_error w st k ex st1 ovr st2 e hex
      (by rw [resolve_provider_decision_eq w st k snap st1 hfetch, hsnap]) hovr hov hcat

/-- C2 (amended) witness: the missing-file case yields an empty
catalog, while a non-object top level raises through
`is_feature_enabled`. -/
theorem c2_amended_catalog_failsoft_witness :
    load_catalog (.content (.arr [])) = .error .attributeError ∧
    is_feature_enabled ⟨none, none, none, none, none, .content (.arr []), .urlError, 0, 30⟩
      ⟨none, none, [], 0⟩ "api.a" .null = .error .attributeError :=
  ⟨c2_amended_catalog_failsoft.2.2.2.2.1 (.arr []) (fun _ h => nomatch h),
    c2_amended_catalog_failsoft.2.2.2.2.2
      ⟨none, none, none, none, none, .content (.arr []), .urlError, 0, 30⟩
      ⟨none, none, [], 0⟩ "api.a" .null [] ⟨none, none, [], 0⟩
      [] ⟨none, some [], [], 0⟩ .attributeError
      rfl rfl rfl rfl rfl rfl rfl⟩

/-- C9: for a catalog entry whose two date fields parse, the hygiene
validator records the ordering violation whenever `removeBy` is
strictly before `createdAt`, records the expired-and-not-removed
violation exactly when `removeBy` is strictly before today and the
status is not `"removed"`, and never reports an entry with status
`"removed"` as expired. -/
theorem c9_date_validations (key : String) (flag : Json) (status : String)
    (today created_at remove_by : PyDate)
    (hc : CheckFeatureFlags.parse_iso_date (jsonGet flag "createdAt") key "createdAt" =
      (some created_at, []))
    (hr : CheckFeatureFlags.parse_iso_date (jsonGet flag "removeBy") key "removeBy" =
      (some remove_by, [])) :
    (PyDate.lt remove_by created_at = true →
      (⟨CheckFeatureFlags.order_violation_msg key⟩ : CheckFeatureFlags.ValidationError) ∈
        CheckFeatureFlags.validate_dates key flag status today) ∧
    ((⟨CheckFeatureFlags.expired_violation_msg key remove_by status⟩ :
          CheckFeatureFlags.ValidationError) ∈
        CheckFeatureFlags.validate_dates key flag status today ↔
      (status ≠ "removed" ∧ PyDate.lt remove_by today = true)) ∧
    (status = "removed" →
      (⟨CheckFeatureFlags.expired_violation_msg key remove_by status⟩ :
          CheckFeatureFlags.ValidationError) ∉
        CheckFeatureFlags.validate_dates key flag status today) := by
  have hform := CheckFeatureFlags.validate_dates_eq key flag status today
    created_at remove_by hc hr
  have hiff : (⟨CheckFeatureFlags.expired_violation_msg key remove_by status⟩ :
        CheckFeatureFlags.ValidationError) ∈
      CheckFeatureFlags.validate_dates key flag status today ↔
      (status ≠ "removed" ∧ PyDate.lt remove_by today = true) := by
    rw [hform]
    by_cases hcond : (status != "removed" && PyDate.lt remove_by today) = true
    · have hrhs : status ≠ "removed" ∧ PyDate.lt remove_by today = true := by
        simpa [bne_iff_ne] using hcond
      simp [hcond, hrhs, List.mem_append]
    · have hrhs : ¬ (status ≠ "removed" ∧ PyDate.lt remove_by today = true) := by
        rintro ⟨h1, h2⟩
        exact hcond (by simp [bne_iff_ne, h1, h2])
      rw [if_neg hcond, List.append_nil]
      constructor
      · intro hmem
        exfalso
        by_cases hltc : PyDate.lt remove_by created_at = true
        · rw [if_pos hltc] at hmem
          have heq := List.mem_singleton.mp hmem
          exact CheckFeatureFlags.expired_msg_ne_order_msg key remove_by status
            (congrArg CheckFeatureFlags.ValidationError.message heq)
        · rw [if_neg hltc] at hmem
          exact absurd hmem (List.not_mem_nil _)
      · intro hmem
        exact absurd hmem hrhs
  refine ⟨fun hlt => ?_, hiff, fun hrem => ?_⟩
  · rw [hform, if_pos hlt]
    exact List.mem_append_left _ (List.mem_singleton.mpr rfl)
  · intro hmem
    exact absurd (hiff.mp hmem).1 (by simp [hrem])

/-- C9 witness: an entry with `removeBy` before `createdAt` and before
today, status `"draft"`, triggers both checks. -/
theorem c9_date_validations_witness :
    ((⟨CheckFeatureFlags.order_violation_msg "api.a"⟩ : CheckFeatureFlags.ValidationError) ∈
      CheckFeatureFlags.validate_dates "api.a"
        (.obj [("createdAt", .str "2024-01-02"), ("removeBy", .str "2024-01-01")])
        "draft" ⟨2024, 6, 1⟩) ∧
    ((⟨CheckFeatureFlags.expired_violation_msg "api.a" ⟨2024, 1, 1⟩ "draft"⟩ :
        CheckFeatureFlags.ValidationError) ∈
      CheckFeatureFlags.validate_dates "api.a"
        (.obj [("createdAt", .str "2024-01-02"), ("removeBy", .str "2024-01-01")])
        "draft" ⟨2024, 6, 1⟩) := by
  have h := c9_date_validations "api.a"
    (.obj [("createdAt", .str "2024-01-02"), ("removeBy", .str "2024-01-01")])
    "draft" ⟨2024, 6, 1⟩ ⟨2024, 1, 2⟩ ⟨2024, 1, 1⟩ (by decide) (by decide)
  exact ⟨h.1 (by decide), h.2.1.mpr ⟨by decide, by decide⟩⟩

/-- C8: the hygiene script exits 0 iff the catalog loads and every
flag passes every validation — then printing the flag count to stdout;
it exits 1 with each violation on stderr when any violation is
collected, and exits 1 with a single top-level failure line when the
catalog cannot be loaded or lacks a top-level `flags` array. -/
theorem c8_hygiene_exit_codes (file : FeatureFlags.FileState) (today : PyDate) :
    ((CheckFeatureFlags.main file today).exit_code = 0 ↔
      ∃ flags, CheckFeatureFlags.load_flags file = .ok flags ∧
        CheckFeatureFlags.validate_flags flags "api" today = []) ∧
    (∀ flags, CheckFeatureFlags.load_flags file = .ok flags →
        CheckFeatureFlags.validate_flags flags "api" today = [] →
        CheckFeatureFlags.main file today =
          ⟨0, ["[feature-flags-hygiene] OK (" ++ toString flags.length ++ " flags)"], []⟩) ∧
    (∀ flags e es, CheckFeatureFlags.load_flags file = .ok flags →
        CheckFeatureFlags.validate_flags flags "api" today = e :: es →
        CheckFeatureFlags.main file today = ⟨1, [],
          "[feature-flags-hygiene] FAILED" ::
            (e :: es).map (fun er => " - " ++ er.message)⟩) ∧
    (∀ exc, CheckFeatureFlags.load_flags file = .error exc →
        CheckFeatureFlags.main file today = ⟨1, [],
          ["[feature-flags-hygiene] FAILED", " - " ++ CheckFeatureFlags.exn_message exc]⟩) := by
  have hok : ∀ flags, CheckFeatureFlags.load_flags file = .ok flags →
      CheckFeatureFlags.validate_flags flags "api" today = [] →
      CheckFeatureFlags.main file today =
        ⟨0, ["[feature-flags-hygiene] OK (" ++ toString flags.length ++ " flags)"], []⟩ := by
    intro flags h hval
    unfold CheckFeatureFlags.main
    rw [h]
    simp [hval]
  have herrs : ∀ flags e es, CheckFeatureFlags.load_flags file = .ok flags →
      CheckFeatureFlags.validate_flags flags "api" today = e :: es →
      CheckFeatureFlags.main file today = ⟨1, [],
        "[feature-flags-hygiene] FAILED" ::
          (e :: es).map (fun er => " - " ++ er.message)⟩ := by
    intro flags e es h hval
    unfold CheckFeatureFlags.main
    rw [h]
    simp [hval]
  have hexc : ∀ exc, CheckFeatureFlags.load_flags file = .error exc →
      CheckFeatureFlags.main file today = ⟨1, [],
        ["[feature-flags-hygiene] FAILED", " - " ++ CheckFeatureFlags.exn_message exc]⟩ := by
    intro exc h
    unfold CheckFeatureFlags.main
    rw [h]
  refine ⟨⟨fun h0 => ?_, fun hex => ?_⟩, hok, herrs, hexc⟩
  · cases hl : CheckFeatureFlags.load_flags file with
    | error exc =>
        rw [hexc exc hl] at h0
        simp at h0
    | ok flags =>
        cases hval : CheckFeatureFlags.validate_flags flags "api" today with
        | nil => exact ⟨flags, rfl, hval⟩
        | cons e es =>
            rw [herrs flags e es hl hval] at h0
            simp at h0
  · obtain ⟨flags, hl, hval⟩ := hex
    rw [hok flags hl hval]

/-- C8 witness: a fully valid single-flag catalog exits 0 reporting
one flag; a catalog without a `flags` array exits 1 with a single
failure line. -/
theorem c8_hygiene_exit_codes_witness :
    CheckFeatureFlags.main
        (.content (.obj [("flags", .arr [.obj
          [("key", .str "api.a"), ("owner", .str "team"), ("type", .str "release"),
           ("status", .str "draft"), ("createdAt", .str "2024-01-01"),
           ("removeBy", .str "2099-01-01")]])]))
        ⟨2025, 10, 12⟩ =
      ⟨0, ["[feature-flags-hygiene] OK (1 flags)"], []⟩ ∧
    CheckFeatureFlags.main (.content (.obj [("other", .null)])) ⟨2025, 10, 12⟩ =
      ⟨1, [], ["[feature-flags-hygiene] FAILED",
        " - catalog must contain a top-level \x27flags\x27 array"]⟩ := by
  constructor
  · exact (c8_hygiene_exit_codes
        (.content (.obj [("flags", .arr [.obj
          [("key", .str "api.a"), ("owner", .str "team"), ("type", .str "release"),
           ("status", .str "draft"), ("createdAt", .str "2024-01-01"),
           ("removeBy", .str "2099-01-01")]])]))
        ⟨2025, 10, 12⟩).2.1
      [.obj [("key", .str "api.a"), ("owner", .str "team"), ("type", .str "release"),
             ("status", .str "draft"), ("createdAt", .str "2024-01-01"),
             ("removeBy", .str "2099-01-01")]] rfl (by decide)
  · exact (c8_hygiene_exit_codes (.content (.obj [("other", .null)])) ⟨2025, 10, 12⟩).2.2.2
      (.valueError "catalog must contain a top-level \x27flags\x27 array") rfl

/-- C4 witness: the string `" YES "` decides to true against a world
whose catalog would say false. -/
theorem c4_explicit_argument_witness :
    is_feature_enabled ⟨none, none, none, none, none, .missing, .urlError, 0, 30⟩
      ⟨none, none, [], 0⟩ "api.a" (.str " YES ") =
      .ok (true, ⟨none, none, [], 0⟩) :=
  (c4_explicit_argument ⟨none, none, none, none, none, .missing, .urlError, 0, 30⟩
      ⟨none, none, [], 0⟩ "api.a").2.1 " YES " (by decide)

end Claims
